import Mathlib

/-!
Verification of the mountain-info aggregation handler of
smart-city-climbing-trail-lambda.

The repository contains two variants of the handler for
`GET /mountain-info`:

* `src/modules/mountain-info/mountain-info.handler.ts` — the plain
  `APIGatewayProxyHandler`, embedded below as `MountainInfo.handler`;
* an unnamed file carrying the same path comment, wrapped in
  `createGatewayHandler`, embedded below as `MountainInfo.handlerGW`.

External collaborators (coordinate resolver, the three providers) are
passed in as an `Env`; every provider outcome is a settled promise
(`Settled`), matching what `Promise.allSettled` delivers. Bodies are
JSON values with field order preserved, so key-ordering claims are
statable. Each handler additionally returns the list of downstream
calls it issued, so "no provider calls are made" claims are statable.
-/

namespace MountainInfo

/-- JSON values; object fields keep their insertion order, as
`JSON.stringify` does. -/
inductive Json where
  | null : Json
  | str : String → Json
  | num : Int → Json
  | bool : Bool → Json
  | arr : List Json → Json
  | obj : List (String × Json) → Json

/-- Top-level keys of a JSON object, in serialization order. -/
def Json.keys : Json → List String
  | .obj fields => fields.map Prod.fst
  | _ => []

/-- Look up a top-level key of a JSON object. -/
def Json.get : Json → String → Option Json
  | .obj fields, k => (fields.find? (fun p => p.fst = k)).map Prod.snd
  | _, _ => none

/-- Outcome of a settled promise, as delivered by `Promise.allSettled`:
either `{status: "fulfilled", value}` or `{status: "rejected", reason}`.
The reason is carried already stringified (the handlers only ever
interpolate it into a template string / take its message). -/
inductive Settled where
  | fulfilled : Json → Settled
  | rejected : String → Settled

/-- Predicate for a fulfilled outcome. -/
def Settled.isFulfilled : Settled → Bool
  | .fulfilled _ => true
  | .rejected _ => false

/-- Coordinate pair returned by `getCoordinatesByTrailName`. The
handler never computes with the numbers, it only passes them on, so an
integer model suffices. -/
structure Coord where
  lat : Int
  lng : Int
deriving DecidableEq, Repr

/-- Query-string object of the event; `trailName` may be absent. -/
structure QueryStringParameters where
  trailName : Option String
deriving DecidableEq, Repr

/-- API Gateway event as far as the handler reads it:
`event.queryStringParameters` may itself be null/absent. -/
structure APIGatewayEvent where
  queryStringParameters : Option QueryStringParameters
deriving DecidableEq, Repr

/-- External collaborators of one request. `getCoordinatesByTrailName`
may throw (modelled as `Except.error` with the stringified exception);
each provider call settles to a `Settled` outcome for the given
coordinates. -/
structure Env where
  getCoordinatesByTrailName : String → Except String Coord
  getWeatherAlert : Coord → Settled
  getAirQuality : Coord → Settled
  getSunTimes : Coord → Settled

/-- Downstream calls a handler run can issue, for call-count claims. -/
inductive Call where
  | coordinates : Call
  | weather : Call
  | airQuality : Call
  | sunTimes : Call
deriving DecidableEq, Repr

/-- Modelled from the spec: the `HttpStatus` constants are imported
from `@/common/constants/http-status`, a file not present under
`src/`; the spec fixes OK = 200, BAD_REQUEST = 400,
INTERNAL_SERVER_ERROR = 500. -/
def HttpStatus.OK : Nat := 200

/-- Modelled from the spec: see `HttpStatus.OK`. -/
def HttpStatus.BAD_REQUEST : Nat := 400

/-- Modelled from the spec: see `HttpStatus.OK`. -/
def HttpStatus.INTERNAL_SERVER_ERROR : Nat := 500

/-- Response of the plain Lambda handler: `{statusCode, body}` with the
body a JSON value (the source serializes it with `JSON.stringify`). -/
structure LambdaResponse where
  statusCode : Nat
  body : Json

/-- Body of the 400 validation response. -/
def badRequestBody : Json := .obj [("message", .str "trailName is required.")]

/-- Body of the generic 500 response of the outermost catch. -/
def internalErrorBody : Json := .obj [("message", .str "Internal Server Error")]

/-- JavaScript truthiness of the guard
`!queryStringParameters?.trailName`: true when the query object is
null/absent, the parameter is absent, or the parameter is the empty
string. -/
def missingTrailName (event : APIGatewayEvent) : Bool :=
  match event.queryStringParameters with
  | none => true
  | some q =>
    match q.trailName with
    | none => true
    | some s => s.isEmpty

/-- Post-join aggregation of `mountain-info.handler.ts` (lines 35-60):
builds the `errors` list from the three settled outcomes, returns the
500 `Errors occurred` response when any error was collected, otherwise
the 200 body with the three provider values. The `fulfilled` checks in
the 200 branch are kept from the source even though they cannot see a
rejection there. -/
def aggregate (weather airQuality sunTimes : Settled) : LambdaResponse :=
  let errors : List String :=
    (match weather with
     | .rejected r => ["Weather API Error: " ++ r]
     | .fulfilled _ => []) ++
    (match airQuality with
     | .rejected r => ["Air Quality API Error: " ++ r]
     | .fulfilled _ => []) ++
    (match sunTimes with
     | .rejected r => ["Sun Times API Error: " ++ r]
     | .fulfilled _ => [])
  if errors.length > 0 then
    { statusCode := HttpStatus.INTERNAL_SERVER_ERROR,
      body := .obj [("message", .str "Errors occurred"),
                    ("errors", .arr (errors.map Json.str))] }
  else
    { statusCode := HttpStatus.OK,
      body := .obj
        [("weather", match weather with
                     | .fulfilled v => v
                     | .rejected _ => Json.null),
         ("airQuality", match airQuality with
                        | .fulfilled v => v
                        | .rejected _ => Json.null),
         ("sunTimes", match sunTimes with
                      | .fulfilled v => v
                      | .rejected _ => Json.null)] }

/-- The plain Lambda handler of
`src/modules/mountain-info/mountain-info.handler.ts`. Besides the
response it returns the list of downstream calls issued. The outer
`try`/`catch` is modelled by the `Except.error` branch of coordinate
resolution — the only awaited step that can throw; it yields the
generic 500 body and no provider call is issued. -/
def handler (env : Env) (event : APIGatewayEvent) : LambdaResponse × List Call :=
  if missingTrailName event then
    ({ statusCode := HttpStatus.BAD_REQUEST, body := badRequestBody }, [])
  else
    match event.queryStringParameters with
    | none =>
      ({ statusCode := HttpStatus.BAD_REQUEST, body := badRequestBody }, [])
    | some q =>
      match q.trailName with
      | none =>
        ({ statusCode := HttpStatus.BAD_REQUEST, body := badRequestBody }, [])
      | some trailName =>
        match env.getCoordinatesByTrailName trailName with
        | .error _ =>
          ({ statusCode := HttpStatus.INTERNAL_SERVER_ERROR,
             body := internalErrorBody }, [Call.coordinates])
        | .ok coord =>
          (aggregate (env.getWeatherAlert coord) (env.getAirQuality coord)
             (env.getSunTimes coord),
           [Call.coordinates, Call.weather, Call.airQuality, Call.sunTimes])

/-- Response shape of `createGatewayHandler`'s `res` callback:
`{status, body}`. -/
structure GatewayResponse where
  status : Nat
  body : Json

/-- The `results.forEach` merge of the gateway-handler variant
(lines 143-155): walks the outcomes in the fixed order `weather`,
`airQuality`, `sunTimes`, filling `response[apiName]` with the value or
`null` and pushing one `` `${apiName} API Error: ${errorMessage}` ``
entry per rejection. Returns the response fields (in insertion order)
and the errors list. -/
def gatewayMerge (weather airQuality sunTimes : Settled) :
    List (String × Json) × List String :=
  [("weather", weather), ("airQuality", airQuality), ("sunTimes", sunTimes)].foldl
    (fun acc p =>
      match p.snd with
      | .fulfilled v => (acc.fst ++ [(p.fst, v)], acc.snd)
      | .rejected msg =>
        (acc.fst ++ [(p.fst, Json.null)],
         acc.snd ++ [p.fst ++ " API Error: " ++ msg]))
    ([], [])

/-- The gateway-handler variant (the unnamed file). Its body has no
`try`/`catch`, so a throwing coordinate resolution propagates out of
the wrapped function: that is modelled as `Except.error`. A present,
non-null `req.query` is assumed (the variant reads
`queryStringParameters.trailName` without optional chaining). -/
def handlerGW (env : Env) (query : QueryStringParameters) :
    Except String (GatewayResponse × List Call) :=
  match query.trailName with
  | none =>
    .ok ({ status := HttpStatus.BAD_REQUEST, body := badRequestBody }, [])
  | some trailName =>
    if trailName.isEmpty then
      .ok ({ status := HttpStatus.BAD_REQUEST, body := badRequestBody }, [])
    else
      match env.getCoordinatesByTrailName trailName with
      | .error e => .error e
      | .ok coord =>
        let merged := gatewayMerge (env.getWeatherAlert coord)
          (env.getAirQuality coord) (env.getSunTimes coord)
        let calls := [Call.coordinates, Call.weather, Call.airQuality,
          Call.sunTimes]
        if merged.snd.length > 0 then
          .ok ({ status := HttpStatus.INTERNAL_SERVER_ERROR,
                 body := .obj [("message", .str "Errors occurred"),
                               ("errors", .arr (merged.snd.map Json.str)),
                               ("data", .obj merged.fst)] }, calls)
        else
          .ok ({ status := HttpStatus.OK, body := .obj merged.fst }, calls)

/-- Value a settled outcome contributes to the merged data: the value
when fulfilled, `null` when rejected. -/
def settledData : Settled → Json
  | .fulfilled v => v
  | .rejected _ => Json.null

/-- Error entries a settled outcome contributes: none when fulfilled,
one `<label> API Error: <reason>` entry when rejected. The plain
handler uses the labels `Weather`, `Air Quality`, `Sun Times`; the
gateway variant uses the key names `weather`, `airQuality`,
`sunTimes`. -/
def settledError (label : String) : Settled → List String
  | .fulfilled _ => []
  | .rejected msg => [label ++ " API Error: " ++ msg]

/-! Settle-order model. `Promise.allSettled` receives the three
promises in a fixed positional order; the runtime settles them in some
schedule (any order in which each promise settles at least once, i.e.
exactly once — a permutation of the indices). Each settle event writes
the outcome into its own slot of the result array; `allSettled`
resolves once every slot is filled. -/

/-- One settle event: promise `i` settles, writing its outcome into
slot `i` of the result array. -/
def applySettle (results : Fin 3 → Settled) (acc : Fin 3 → Option Settled)
    (i : Fin 3) : Fin 3 → Option Settled :=
  fun j => if j = i then some (results i) else acc j

/-- Run a settle schedule over an initially pending result array. -/
def runSchedule (results : Fin 3 → Settled) (order : List (Fin 3)) :
    Fin 3 → Option Settled :=
  order.foldl (applySettle results) (fun _ => none)

/-- The plain handler with the `Promise.allSettled` join made explicit
against a settle schedule: `none` when some promise never settles
(the handler would still be suspended), otherwise the response built
from the filled result array. -/
def handlerSched (env : Env) (event : APIGatewayEvent)
    (order : List (Fin 3)) : Option (LambdaResponse × List Call) :=
  if missingTrailName event then
    some ({ statusCode := HttpStatus.BAD_REQUEST, body := badRequestBody }, [])
  else
    match event.queryStringParameters with
    | none =>
      some ({ statusCode := HttpStatus.BAD_REQUEST, body := badRequestBody }, [])
    | some q =>
      match q.trailName with
      | none =>
        some ({ statusCode := HttpStatus.BAD_REQUEST, body := badRequestBody }, [])
      | some trailName =>
        match env.getCoordinatesByTrailName trailName with
        | .error _ =>
          some ({ statusCode := HttpStatus.INTERNAL_SERVER_ERROR,
                  body := internalErrorBody }, [Call.coordinates])
        | .ok coord =>
          let results : Fin 3 → Settled := fun i =>
            match i with
            | 0 => env.getWeatherAlert coord
            | 1 => env.getAirQuality coord
            | 2 => env.getSunTimes coord
          let settled := runSchedule results order
          match settled 0, settled 1, settled 2 with
          | some w, some a, some s =>
            some (aggregate w a s,
              [Call.coordinates, Call.weather, Call.airQuality, Call.sunTimes])
          | _, _, _ => none

/-! Timing model. Modelled from the spec (section 5): single-threaded
cooperative concurrency — a sequentially awaited step adds its
duration, while the three promises handed to `Promise.allSettled` are
issued without waiting for one another, so the join completes when the
slowest of them settles. -/

/-- Durations of the awaited external operations of one request. -/
structure Durations where
  resolve : Nat
  weather : Nat
  airQuality : Nat
  sunTimes : Nat
deriving DecidableEq, Repr

/-- Completion time of the `Promise.allSettled` join of the three
concurrently issued provider calls: the maximum of their durations
(a rejection settles its promise just like a fulfillment, so a failed
call neither blocks nor cancels the join). -/
def allSettledLatency (d : Durations) : Nat :=
  max d.weather (max d.airQuality d.sunTimes)

/-- Total latency of the plain handler: validation failures return
synchronously; a throwing resolution costs its own duration; otherwise
the sequentially awaited resolution plus the concurrent join. -/
def handlerLatency (env : Env) (d : Durations) (event : APIGatewayEvent) : Nat :=
  if missingTrailName event then 0
  else
    match event.queryStringParameters with
    | none => 0
    | some q =>
      match q.trailName with
      | none => 0
      | some trailName =>
        match env.getCoordinatesByTrailName trailName with
        | .error _ => d.resolve
        | .ok _ => d.resolve + allSettledLatency d

/-- The plain handler instrumented with the timing model. -/
def handlerTimed (env : Env) (d : Durations) (event : APIGatewayEvent) :
    (LambdaResponse × List Call) × Nat :=
  (handler env event, handlerLatency env d event)

/-! Concrete fixtures used by witnesses and counterexamples. -/

/-- Sample weather DTO value. -/
def weatherSample : Json :=
  .obj [("temperature", .num 5), ("condition", .num 0)]

/-- Sample air-quality DTO value. -/
def airQualitySample : Json :=
  .obj [("fineDustIndex", .num 32)]

/-- Sample sun-time DTO value. -/
def sunTimesSample : Json :=
  .obj [("sunrise", .str "7:26:54 AM"), ("sunset", .str "5:15:33 PM")]

/-- Environment in which every collaborator succeeds. -/
def envAllOk : Env where
  getCoordinatesByTrailName := fun _ => .ok ⟨37, 126⟩
  getWeatherAlert := fun _ => .fulfilled weatherSample
  getAirQuality := fun _ => .fulfilled airQualitySample
  getSunTimes := fun _ => .fulfilled sunTimesSample

/-- Environment in which exactly the weather provider fails. -/
def envOneFail : Env where
  getCoordinatesByTrailName := fun _ => .ok ⟨37, 126⟩
  getWeatherAlert := fun _ => .rejected "boom"
  getAirQuality := fun _ => .fulfilled airQualitySample
  getSunTimes := fun _ => .fulfilled sunTimesSample

/-- Environment in which all three providers fail. -/
def envAllFail : Env where
  getCoordinatesByTrailName := fun _ => .ok ⟨37, 126⟩
  getWeatherAlert := fun _ => .rejected "w-down"
  getAirQuality := fun _ => .rejected "a-down"
  getSunTimes := fun _ => .rejected "s-down"

/-- Environment in which coordinate resolution throws. -/
def envResolveThrows : Env where
  getCoordinatesByTrailName := fun _ => .error "Unknown trail"
  getWeatherAlert := fun _ => .fulfilled weatherSample
  getAirQuality := fun _ => .fulfilled airQualitySample
  getSunTimes := fun _ => .fulfilled sunTimesSample

/-- Well-formed request for the trail `bukhansan`. -/
def eventBukhansan : APIGatewayEvent :=
  ⟨some ⟨some "bukhansan"⟩⟩

/-- Event whose query object is absent. -/
def eventNoQuery : APIGatewayEvent := ⟨none⟩

/-- Event whose query object lacks `trailName`. -/
def eventNoTrail : APIGatewayEvent := ⟨some ⟨none⟩⟩

/-- Event whose `trailName` is the empty string. -/
def eventEmptyTrail : APIGatewayEvent := ⟨some ⟨some ""⟩⟩

/-! Characterization lemmas shared by the claim theorems. -/

/-- All three outcomes fulfilled: `aggregate` returns the 200 response
whose body holds exactly the three provider values. -/
theorem aggregate_of_all_fulfilled (vw va vs : Json) :
    aggregate (.fulfilled vw) (.fulfilled va) (.fulfilled vs) =
      { statusCode := HttpStatus.OK,
        body := .obj [("weather", vw), ("airQuality", va), ("sunTimes", vs)] } :=
  rfl

/-- Some outcome rejected: `aggregate` returns the 500 response whose
errors array collects one labelled entry per rejected outcome. -/
theorem aggregate_of_not_all (w a s : Settled)
    (h : (w.isFulfilled && a.isFulfilled && s.isFulfilled) = false) :
    aggregate w a s =
      { statusCode := HttpStatus.INTERNAL_SERVER_ERROR,
        body := .obj [("message", .str "Errors occurred"),
                      ("errors", .arr ((settledError "Weather" w ++
                        settledError "Air Quality" a ++
                        settledError "Sun Times" s).map Json.str))] } := by
  cases w <;> cases a <;> cases s <;> first
    | rfl
    | exact absurd h (by simp [Settled.isFulfilled])

/-- Status of `aggregate` is 200 exactly when all three outcomes are
fulfilled. -/
theorem aggregate_statusCode_ok_iff (w a s : Settled) :
    (aggregate w a s).statusCode = HttpStatus.OK ↔
      (w.isFulfilled && a.isFulfilled && s.isFulfilled) = true := by
  cases w <;> cases a <;> cases s <;> simp [aggregate, Settled.isFulfilled,
    HttpStatus.OK, HttpStatus.INTERNAL_SERVER_ERROR]

/-- Status of `aggregate` is 500 exactly when some outcome is
rejected. -/
theorem aggregate_statusCode_err_iff (w a s : Settled) :
    (aggregate w a s).statusCode = HttpStatus.INTERNAL_SERVER_ERROR ↔
      (w.isFulfilled && a.isFulfilled && s.isFulfilled) = false := by
  cases w <;> cases a <;> cases s <;> simp [aggregate, Settled.isFulfilled,
    HttpStatus.OK, HttpStatus.INTERNAL_SERVER_ERROR]

/-- Data fields of the gateway merge: always the three keys in order,
each holding the value or `null`. -/
theorem gatewayMerge_fst (w a s : Settled) :
    (gatewayMerge w a s).fst =
      [("weather", settledData w), ("airQuality", settledData a),
       ("sunTimes", settledData s)] := by
  cases w <;> cases a <;> cases s <;> rfl

/-- Errors of the gateway merge: one labelled entry per rejected
outcome, in the fixed provider order. -/
theorem gatewayMerge_snd (w a s : Settled) :
    (gatewayMerge w a s).snd =
      settledError "weather" w ++ settledError "airQuality" a ++
        settledError "sunTimes" s := by
  cases w <;> cases a <;> cases s <;> rfl

/-- Validation failure: the plain handler returns the 400 response and
issues no downstream call. -/
theorem handler_of_missing (env : Env) (event : APIGatewayEvent)
    (h : missingTrailName event = true) :
    handler env event =
      ({ statusCode := HttpStatus.BAD_REQUEST, body := badRequestBody }, []) := by
  simp [handler, h]

/-- Fan-out reduction of the plain handler: a well-formed request with
successful coordinate resolution yields the aggregate of the three
provider outcomes, after calling all four collaborators. -/
theorem handler_fanout (env : Env) (event : APIGatewayEvent)
    (q : QueryStringParameters) (t : String) (coord : Coord)
    (hq : event.queryStringParameters = some q) (ht : q.trailName = some t)
    (hne : t.isEmpty = false)
    (hc : env.getCoordinatesByTrailName t = .ok coord) :
    handler env event =
      (aggregate (env.getWeatherAlert coord) (env.getAirQuality coord)
        (env.getSunTimes coord),
       [Call.coordinates, Call.weather, Call.airQuality, Call.sunTimes]) := by
  simp [handler, missingTrailName, hq, ht, hne, hc]

/-- Resolution-failure reduction of the plain handler: the outer catch
returns the generic 500 body and no provider is called. -/
theorem handler_resolve_error (env : Env) (event : APIGatewayEvent)
    (q : QueryStringParameters) (t : String) (e : String)
    (hq : event.queryStringParameters = some q) (ht : q.trailName = some t)
    (hne : t.isEmpty = false)
    (hc : env.getCoordinatesByTrailName t = .error e) :
    handler env event =
      ({ statusCode := HttpStatus.INTERNAL_SERVER_ERROR,
         body := internalErrorBody }, [Call.coordinates]) := by
  simp [handler, missingTrailName, hq, ht, hne, hc]

/-- Fan-out reduction of the gateway variant. -/
theorem handlerGW_fanout (env : Env) (q : QueryStringParameters)
    (t : String) (coord : Coord)
    (ht : q.trailName = some t) (hne : t.isEmpty = false)
    (hc : env.getCoordinatesByTrailName t = .ok coord) :
    handlerGW env q =
      (let w := env.getWeatherAlert coord
       let a := env.getAirQuality coord
       let s := env.getSunTimes coord
       let merged := gatewayMerge w a s
       if merged.snd.length > 0 then
         .ok ({ status := HttpStatus.INTERNAL_SERVER_ERROR,
                body := .obj [("message", .str "Errors occurred"),
                              ("errors", .arr (merged.snd.map Json.str)),
                              ("data", .obj merged.fst)] },
              [Call.coordinates, Call.weather, Call.airQuality, Call.sunTimes])
       else
         .ok ({ status := HttpStatus.OK, body := .obj merged.fst },
              [Call.coordinates, Call.weather, Call.airQuality, Call.sunTimes])) := by
  simp [handlerGW, ht, hne, hc]

/-- Characterize fulfilled outcomes by their constructor. -/
theorem Settled.isFulfilled_iff (w : Settled) :
    w.isFulfilled = true ↔ ∃ v, w = .fulfilled v := by
  cases w <;> simp [Settled.isFulfilled]

/-- Status of `aggregate` is always 200 or 500. -/
theorem aggregate_statusCode_cases (w a s : Settled) :
    (aggregate w a s).statusCode = HttpStatus.OK ∨
      (aggregate w a s).statusCode = HttpStatus.INTERNAL_SERVER_ERROR := by
  cases w <;> cases a <;> cases s <;> first
    | exact Or.inl rfl
    | exact Or.inr rfl

/-- Effect of a settle schedule on one slot: filled with that
promise's own outcome once the promise has settled, untouched
otherwise. -/
theorem foldl_applySettle (results : Fin 3 → Settled) (order : List (Fin 3))
    (acc : Fin 3 → Option Settled) (j : Fin 3) :
    (order.foldl (applySettle results) acc) j =
      if j ∈ order then some (results j) else acc j := by
  induction order generalizing acc with
  | nil => simp
  | cons i rest ih =>
    simp only [List.foldl_cons, ih, List.mem_cons]
    by_cases hj : j ∈ rest
    · simp [hj]
    · by_cases hji : j = i
      · subst hji
        simp [hj, applySettle]
      · simp [hj, hji, applySettle]

/-- Once every promise has settled, the result array holds every
outcome at its own index, whatever the settle order was. -/
theorem runSchedule_complete (results : Fin 3 → Settled)
    (order : List (Fin 3)) (h : ∀ j : Fin 3, j ∈ order) (j : Fin 3) :
    runSchedule results order j = some (results j) := by
  simp [runSchedule, foldl_applySettle, h j]

/-- Under any schedule in which all three promises settle, the
schedule-explicit handler produces exactly the canonical handler's
response. -/
theorem handlerSched_eq_handler (env : Env) (event : APIGatewayEvent)
    (order : List (Fin 3)) (h : ∀ j : Fin 3, j ∈ order) :
    handlerSched env event order = some (handler env event) := by
  cases hqs : event.queryStringParameters with
  | none => simp [handlerSched, handler, missingTrailName, hqs]
  | some q =>
    cases htn : q.trailName with
    | none => simp [handlerSched, handler, missingTrailName, hqs, htn]
    | some t =>
      by_cases hne : t.isEmpty
      · simp [handlerSched, handler, missingTrailName, hqs, htn, hne]
      · cases hc : env.getCoordinatesByTrailName t with
        | error e =>
          simp [handlerSched, handler, missingTrailName, hqs, htn, hne, hc]
        | ok coord =>
          simp only [handlerSched, handler, missingTrailName, hqs, htn,
            Bool.if_false_left, hne, hc]
          simp [runSchedule_complete _ order h]

/-- Gateway variant, all providers fulfilled: 200 with exactly the
three values. -/
theorem handlerGW_of_all (env : Env) (q : QueryStringParameters)
    (t : String) (coord : Coord) (vw va vs : Json)
    (ht : q.trailName = some t) (hne : t.isEmpty = false)
    (hc : env.getCoordinatesByTrailName t = .ok coord)
    (hw : env.getWeatherAlert coord = .fulfilled vw)
    (ha : env.getAirQuality coord = .fulfilled va)
    (hs : env.getSunTimes coord = .fulfilled vs) :
    handlerGW env q =
      .ok ({ status := HttpStatus.OK,
             body := .obj [("weather", vw), ("airQuality", va),
                           ("sunTimes", vs)] },
           [Call.coordinates, Call.weather, Call.airQuality, Call.sunTimes]) := by
  have h1 := handlerGW_fanout env q t coord ht hne hc
  rw [hw, ha, hs] at h1
  exact h1

/-- Gateway variant, some provider rejected: 500 with the labelled
errors and the data object mapping each provider to value-or-null. -/
theorem handlerGW_of_not_all (env : Env) (q : QueryStringParameters)
    (t : String) (coord : Coord)
    (ht : q.trailName = some t) (hne : t.isEmpty = false)
    (hc : env.getCoordinatesByTrailName t = .ok coord)
    (h : ((env.getWeatherAlert coord).isFulfilled &&
          (env.getAirQuality coord).isFulfilled &&
          (env.getSunTimes coord).isFulfilled) = false) :
    handlerGW env q =
      .ok ({ status := HttpStatus.INTERNAL_SERVER_ERROR,
             body := .obj
               [("message", .str "Errors occurred"),
                ("errors", .arr ((settledError "weather" (env.getWeatherAlert coord) ++
                   settledError "airQuality" (env.getAirQuality coord) ++
                   settledError "sunTimes" (env.getSunTimes coord)).map Json.str)),
                ("data", .obj
                  [("weather", settledData (env.getWeatherAlert coord)),
                   ("airQuality", settledData (env.getAirQuality coord)),
                   ("sunTimes", settledData (env.getSunTimes coord))])] },
           [Call.coordinates, Call.weather, Call.airQuality, Call.sunTimes]) := by
  have h1 := handlerGW_fanout env q t coord ht hne hc
  revert h h1
  generalize env.getWeatherAlert coord = w
  generalize env.getAirQuality coord = a
  generalize env.getSunTimes coord = s
  intro h h1
  cases w <;> cases a <;> cases s <;> first
    | exact h1
    | exact absurd h (by simp [Settled.isFulfilled])

/-! Claim theorems. -/

/-- C1, counterexample: the claim asserts that the 500 `Errors
occurred` body carries all three keys under `data`; for the plain
handler (`mountain-info.handler.ts`) with one failed provider the 500
body has keys `message` and `errors` only — there is no `data` key at
all, hence none of the three provider keys appear in the 500 body. -/
theorem claimC1_counterexample :
    (handler envOneFail eventBukhansan).fst.statusCode =
        HttpStatus.INTERNAL_SERVER_ERROR
    ∧ (handler envOneFail eventBukhansan).fst.body.get "data" = none
    ∧ (handler envOneFail eventBukhansan).fst.body.keys = ["message", "errors"] :=
  ⟨rfl, rfl, rfl⟩

/-- C1, amended: for every request that passes validation and
coordinate resolution, the 200 body contains the three keys `weather`,
`airQuality`, `sunTimes` at top level; in the gateway variant the 500
`Errors occurred` body carries all three keys under `data`; the plain
handler's 500 body instead has exactly the keys `message` and
`errors`, with no `data`. -/
theorem claimC1 (env : Env) (event : APIGatewayEvent)
    (q : QueryStringParameters) (t : String) (coord : Coord)
    (hq : event.queryStringParameters = some q) (ht : q.trailName = some t)
    (hne : t.isEmpty = false)
    (hc : env.getCoordinatesByTrailName t = .ok coord) :
    ((handler env event).fst.statusCode = HttpStatus.OK →
      (handler env event).fst.body.keys = ["weather", "airQuality", "sunTimes"])
    ∧ ((handler env event).fst.statusCode = HttpStatus.INTERNAL_SERVER_ERROR →
      (handler env event).fst.body.keys = ["message", "errors"])
    ∧ ∃ resp calls, handlerGW env q = .ok (resp, calls)
        ∧ (resp.status = HttpStatus.OK →
            resp.body.keys = ["weather", "airQuality", "sunTimes"])
        ∧ (resp.status = HttpStatus.INTERNAL_SERVER_ERROR →
            ∃ fields, resp.body.get "data" = some (.obj fields)
              ∧ fields.map Prod.fst = ["weather", "airQuality", "sunTimes"]) := by
  rw [handler_fanout env event q t coord hq ht hne hc]
  by_cases hall : ((env.getWeatherAlert coord).isFulfilled &&
      (env.getAirQuality coord).isFulfilled &&
      (env.getSunTimes coord).isFulfilled) = true
  · have hall2 := hall
    simp only [Bool.and_eq_true] at hall2
    obtain ⟨⟨hxw, hxa⟩, hxs⟩ := hall2
    obtain ⟨vw, hw⟩ := (Settled.isFulfilled_iff _).mp hxw
    obtain ⟨va, ha⟩ := (Settled.isFulfilled_iff _).mp hxa
    obtain ⟨vs, hs⟩ := (Settled.isFulfilled_iff _).mp hxs
    rw [hw, ha, hs, aggregate_of_all_fulfilled]
    refine ⟨fun _ => rfl, fun h => absurd h (by simp [HttpStatus.OK, HttpStatus.INTERNAL_SERVER_ERROR]), _, _,
      handlerGW_of_all env q t coord vw va vs ht hne hc hw ha hs,
      fun _ => rfl, fun h => absurd h (by simp [HttpStatus.OK, HttpStatus.INTERNAL_SERVER_ERROR])⟩
  · have hfail : ((env.getWeatherAlert coord).isFulfilled &&
        (env.getAirQuality coord).isFulfilled &&
        (env.getSunTimes coord).isFulfilled) = false := by
      cases hb : ((env.getWeatherAlert coord).isFulfilled &&
          (env.getAirQuality coord).isFulfilled &&
          (env.getSunTimes coord).isFulfilled)
      · rfl
      · exact absurd hb hall
    rw [aggregate_of_not_all _ _ _ hfail]
    refine ⟨fun h => absurd h (by simp [HttpStatus.OK, HttpStatus.INTERNAL_SERVER_ERROR]), fun _ => rfl, _, _,
      handlerGW_of_not_all env q t coord ht hne hc hfail,
      fun h => absurd h (by simp [HttpStatus.OK, HttpStatus.INTERNAL_SERVER_ERROR]), fun _ => ⟨_, rfl, rfl⟩⟩

/-- C1 witness: the amended claim instantiated at a request where the
weather provider fails. -/
theorem claimC1_witness :
    ∃ resp calls, handlerGW envOneFail ⟨some "bukhansan"⟩ = .ok (resp, calls)
      ∧ (resp.status = HttpStatus.OK →
          resp.body.keys = ["weather", "airQuality", "sunTimes"])
      ∧ (resp.status = HttpStatus.INTERNAL_SERVER_ERROR →
          ∃ fields, resp.body.get "data" = some (.obj fields)
            ∧ fields.map Prod.fst = ["weather", "airQuality", "sunTimes"]) :=
  (claimC1 envOneFail eventBukhansan ⟨some "bukhansan"⟩ "bukhansan" ⟨37, 126⟩
    rfl rfl (by decide) rfl).2.2

/-- C2, counterexample: the claim asserts the merged data of the
failure response maps every successful provider to its returned value;
for the plain handler with exactly the weather provider failed, the
500 body does carry exactly one error entry naming the provider, but
the successful providers' values appear nowhere in it. -/
theorem claimC2_counterexample :
    (handler envOneFail eventBukhansan).fst.statusCode =
        HttpStatus.INTERNAL_SERVER_ERROR
    ∧ (handler envOneFail eventBukhansan).fst.body.get "errors" =
        some (.arr [.str "Weather API Error: boom"])
    ∧ (handler envOneFail eventBukhansan).fst.body.get "airQuality" = none
    ∧ (handler envOneFail eventBukhansan).fst.body.get "sunTimes" = none :=
  ⟨rfl, rfl, rfl, rfl⟩

/-- C2, amended: for every request reaching the fan-out with at least
one failed provider, both handlers report exactly one error entry per
failed provider, each entry naming that provider; the gateway
variant's `data` maps every failed provider to `null` and every
successful one to its returned value, while the plain handler's 500
body carries the errors but no data values. -/
theorem claimC2 (env : Env) (event : APIGatewayEvent)
    (q : QueryStringParameters) (t : String) (coord : Coord)
    (hq : event.queryStringParameters = some q) (ht : q.trailName = some t)
    (hne : t.isEmpty = false)
    (hc : env.getCoordinatesByTrailName t = .ok coord)
    (hfail : ((env.getWeatherAlert coord).isFulfilled &&
      (env.getAirQuality coord).isFulfilled &&
      (env.getSunTimes coord).isFulfilled) = false) :
    handler env event =
      ({ statusCode := HttpStatus.INTERNAL_SERVER_ERROR,
         body := .obj [("message", .str "Errors occurred"),
                       ("errors", .arr ((settledError "Weather" (env.getWeatherAlert coord) ++
                         settledError "Air Quality" (env.getAirQuality coord) ++
                         settledError "Sun Times" (env.getSunTimes coord)).map Json.str))] },
       [Call.coordinates, Call.weather, Call.airQuality, Call.sunTimes])
    ∧ handlerGW env q =
      .ok ({ status := HttpStatus.INTERNAL_SERVER_ERROR,
             body := .obj
               [("message", .str "Errors occurred"),
                ("errors", .arr ((settledError "weather" (env.getWeatherAlert coord) ++
                   settledError "airQuality" (env.getAirQuality coord) ++
                   settledError "sunTimes" (env.getSunTimes coord)).map Json.str)),
                ("data", .obj
                  [("weather", settledData (env.getWeatherAlert coord)),
                   ("airQuality", settledData (env.getAirQuality coord)),
                   ("sunTimes", settledData (env.getSunTimes coord))])] },
           [Call.coordinates, Call.weather, Call.airQuality, Call.sunTimes])
    ∧ (settledError "weather" (env.getWeatherAlert coord) ++
        settledError "airQuality" (env.getAirQuality coord) ++
        settledError "sunTimes" (env.getSunTimes coord)).length =
      (cond (env.getWeatherAlert coord).isFulfilled 0 1) +
        (cond (env.getAirQuality coord).isFulfilled 0 1) +
        (cond (env.getSunTimes coord).isFulfilled 0 1) := by
  refine ⟨?_, handlerGW_of_not_all env q t coord ht hne hc hfail, ?_⟩
  · rw [handler_fanout env event q t coord hq ht hne hc,
      aggregate_of_not_all _ _ _ hfail]
  · generalize env.getWeatherAlert coord = w
    generalize env.getAirQuality coord = a
    generalize env.getSunTimes coord = s
    cases w <;> cases a <;> cases s <;> rfl

/-- C2 witness: the amended claim instantiated at a one-failure
request and at an all-failure request. -/
theorem claimC2_witness :
    (settledError "weather" (envOneFail.getWeatherAlert ⟨37, 126⟩) ++
      settledError "airQuality" (envOneFail.getAirQuality ⟨37, 126⟩) ++
      settledError "sunTimes" (envOneFail.getSunTimes ⟨37, 126⟩)).length = 1
    ∧ (settledError "weather" (envAllFail.getWeatherAlert ⟨37, 126⟩) ++
        settledError "airQuality" (envAllFail.getAirQuality ⟨37, 126⟩) ++
        settledError "sunTimes" (envAllFail.getSunTimes ⟨37, 126⟩)).length = 3 := by
  have h1 := (claimC2 envOneFail eventBukhansan ⟨some "bukhansan"⟩ "bukhansan"
    ⟨37, 126⟩ rfl rfl (by decide) rfl (by decide)).2.2
  have h2 := (claimC2 envAllFail eventBukhansan ⟨some "bukhansan"⟩ "bukhansan"
    ⟨37, 126⟩ rfl rfl (by decide) rfl (by decide)).2.2
  exact ⟨h1, h2⟩

/-- C3: for every request that passes validation and coordinate
resolution, the HTTP status is 200 iff all three provider calls
succeed and 500 iff at least one fails — for the plain handler and
for the gateway variant. -/
theorem claimC3 (env : Env) (event : APIGatewayEvent)
    (q : QueryStringParameters) (t : String) (coord : Coord)
    (hq : event.queryStringParameters = some q) (ht : q.trailName = some t)
    (hne : t.isEmpty = false)
    (hc : env.getCoordinatesByTrailName t = .ok coord) :
    ((handler env event).fst.statusCode = HttpStatus.OK ↔
      ((env.getWeatherAlert coord).isFulfilled &&
        (env.getAirQuality coord).isFulfilled &&
        (env.getSunTimes coord).isFulfilled) = true)
    ∧ ((handler env event).fst.statusCode = HttpStatus.INTERNAL_SERVER_ERROR ↔
      ((env.getWeatherAlert coord).isFulfilled &&
        (env.getAirQuality coord).isFulfilled &&
        (env.getSunTimes coord).isFulfilled) = false)
    ∧ ∃ resp calls, handlerGW env q = .ok (resp, calls)
        ∧ (resp.status = HttpStatus.OK ↔
            ((env.getWeatherAlert coord).isFulfilled &&
              (env.getAirQuality coord).isFulfilled &&
              (env.getSunTimes coord).isFulfilled) = true)
        ∧ (resp.status = HttpStatus.INTERNAL_SERVER_ERROR ↔
            ((env.getWeatherAlert coord).isFulfilled &&
              (env.getAirQuality coord).isFulfilled &&
              (env.getSunTimes coord).isFulfilled) = false) := by
  rw [handler_fanout env event q t coord hq ht hne hc]
  refine ⟨aggregate_statusCode_ok_iff _ _ _,
    aggregate_statusCode_err_iff _ _ _, ?_⟩
  by_cases hall : ((env.getWeatherAlert coord).isFulfilled &&
      (env.getAirQuality coord).isFulfilled &&
      (env.getSunTimes coord).isFulfilled) = true
  · have hall2 := hall
    simp only [Bool.and_eq_true] at hall2
    obtain ⟨⟨hxw, hxa⟩, hxs⟩ := hall2
    obtain ⟨vw, hw⟩ := (Settled.isFulfilled_iff _).mp hxw
    obtain ⟨va, ha⟩ := (Settled.isFulfilled_iff _).mp hxa
    obtain ⟨vs, hs⟩ := (Settled.isFulfilled_iff _).mp hxs
    refine ⟨_, _, handlerGW_of_all env q t coord vw va vs ht hne hc hw ha hs,
      ?_, ?_⟩
    · simp [hall]
    · simp [hall, HttpStatus.OK, HttpStatus.INTERNAL_SERVER_ERROR]
  · have hfail : ((env.getWeatherAlert coord).isFulfilled &&
        (env.getAirQuality coord).isFulfilled &&
        (env.getSunTimes coord).isFulfilled) = false := by
      cases hb : ((env.getWeatherAlert coord).isFulfilled &&
          (env.getAirQuality coord).isFulfilled &&
          (env.getSunTimes coord).isFulfilled)
      · rfl
      · exact absurd hb hall
    refine ⟨_, _, handlerGW_of_not_all env q t coord ht hne hc hfail, ?_, ?_⟩
    · simp [hfail, HttpStatus.OK, HttpStatus.INTERNAL_SERVER_ERROR]
    · simp [hfail]

/-- C3 witness: one failed provider yields status 500, all-success
yields 200. -/
theorem claimC3_witness :
    (handler envOneFail eventBukhansan).fst.statusCode =
        HttpStatus.INTERNAL_SERVER_ERROR
    ∧ (handler envAllOk eventBukhansan).fst.statusCode = HttpStatus.OK :=
  ⟨((claimC3 envOneFail eventBukhansan ⟨some "bukhansan"⟩ "bukhansan" ⟨37, 126⟩
      rfl rfl (by decide) rfl).2.1).mpr (by decide),
   ((claimC3 envAllOk eventBukhansan ⟨some "bukhansan"⟩ "bukhansan" ⟨37, 126⟩
      rfl rfl (by decide) rfl).1).mpr (by decide)⟩

/-- C4: when all three providers succeed, both handlers return 200
with a body holding exactly the three fields `weather`, `airQuality`,
`sunTimes`, each carrying the provider's value unchanged. -/
theorem claimC4 (env : Env) (event : APIGatewayEvent)
    (q : QueryStringParameters) (t : String) (coord : Coord) (vw va vs : Json)
    (hq : event.queryStringParameters = some q) (ht : q.trailName = some t)
    (hne : t.isEmpty = false)
    (hc : env.getCoordinatesByTrailName t = .ok coord)
    (hw : env.getWeatherAlert coord = .fulfilled vw)
    (ha : env.getAirQuality coord = .fulfilled va)
    (hs : env.getSunTimes coord = .fulfilled vs) :
    handler env event =
      ({ statusCode := HttpStatus.OK,
         body := .obj [("weather", vw), ("airQuality", va), ("sunTimes", vs)] },
       [Call.coordinates, Call.weather, Call.airQuality, Call.sunTimes])
    ∧ handlerGW env q =
      .ok ({ status := HttpStatus.OK,
             body := .obj [("weather", vw), ("airQuality", va),
                           ("sunTimes", vs)] },
           [Call.coordinates, Call.weather, Call.airQuality, Call.sunTimes]) := by
  constructor
  · rw [handler_fanout env event q t coord hq ht hne hc, hw, ha, hs,
      aggregate_of_all_fulfilled]
  · exact handlerGW_of_all env q t coord vw va vs ht hne hc hw ha hs

/-- C4 witness: the all-success environment returns the sample DTO
values unchanged. -/
theorem claimC4_witness :
    handler envAllOk eventBukhansan =
      ({ statusCode := HttpStatus.OK,
         body := .obj [("weather", weatherSample),
                       ("airQuality", airQualitySample),
                       ("sunTimes", sunTimesSample)] },
       [Call.coordinates, Call.weather, Call.airQuality, Call.sunTimes]) :=
  (claimC4 envAllOk eventBukhansan ⟨some "bukhansan"⟩ "bukhansan" ⟨37, 126⟩
    weatherSample airQualitySample sunTimesSample
    rfl rfl (by decide) rfl rfl rfl rfl).1

/-- C5: a request with no `trailName` (query object absent, or the
parameter absent) gets the 400 `trailName is required.` response, and
neither coordinate resolution nor any provider is called; likewise for
the gateway variant. -/
theorem claimC5 (env : Env) (event : APIGatewayEvent)
    (h : event.queryStringParameters = none ∨
      ∃ q, event.queryStringParameters = some q ∧ q.trailName = none) :
    handler env event =
      ({ statusCode := HttpStatus.BAD_REQUEST, body := badRequestBody }, [])
    ∧ ∀ q : QueryStringParameters, q.trailName = none →
        handlerGW env q =
          .ok ({ status := HttpStatus.BAD_REQUEST, body := badRequestBody }, []) := by
  constructor
  · apply handler_of_missing
    rcases h with h | ⟨q, hq, ht⟩ <;> simp [missingTrailName, *]
  · intro q hq
    simp [handlerGW, hq]

/-- C5 witness: the claim instantiated at the event lacking
`trailName`. -/
theorem claimC5_witness :
    handler envAllOk eventNoTrail =
      ({ statusCode := HttpStatus.BAD_REQUEST, body := badRequestBody }, []) :=
  (claimC5 envAllOk eventNoTrail (Or.inr ⟨⟨none⟩, rfl, rfl⟩)).1

/-- C6: when coordinate resolution throws, the plain handler returns
the generic 500 `Internal Server Error` body — a constant carrying
nothing of the thrown exception — and no provider call is issued. -/
theorem claimC6 (env : Env) (event : APIGatewayEvent)
    (q : QueryStringParameters) (t e : String)
    (hq : event.queryStringParameters = some q) (ht : q.trailName = some t)
    (hne : t.isEmpty = false)
    (hc : env.getCoordinatesByTrailName t = .error e) :
    handler env event =
      ({ statusCode := HttpStatus.INTERNAL_SERVER_ERROR,
         body := internalErrorBody }, [Call.coordinates])
    ∧ Call.weather ∉ (handler env event).snd
    ∧ Call.airQuality ∉ (handler env event).snd
    ∧ Call.sunTimes ∉ (handler env event).snd := by
  have h1 := handler_resolve_error env event q t e hq ht hne hc
  refine ⟨h1, ?_, ?_, ?_⟩ <;> rw [h1] <;> decide

/-- C6 witness: the claim instantiated at a resolver that throws
`Unknown trail`. -/
theorem claimC6_witness :
    handler envResolveThrows eventBukhansan =
      ({ statusCode := HttpStatus.INTERNAL_SERVER_ERROR,
         body := internalErrorBody }, [Call.coordinates]) :=
  (claimC6 envResolveThrows eventBukhansan ⟨some "bukhansan"⟩ "bukhansan"
    "Unknown trail" rfl rfl (by decide) rfl).1

/-- C7: whatever order the three promises settle in (any schedule in
which each promise settles), the schedule-explicit handler yields the
same response — exactly the canonical one — and the merged results are
presented in the fixed key order `weather`, `airQuality`, `sunTimes`:
always for the gateway merge, and for the plain handler's 200 body. -/
theorem claimC7 (env : Env) (event : APIGatewayEvent)
    (order1 order2 : List (Fin 3))
    (h1 : ∀ j : Fin 3, j ∈ order1) (h2 : ∀ j : Fin 3, j ∈ order2) :
    handlerSched env event order1 = handlerSched env event order2
    ∧ handlerSched env event order1 = some (handler env event)
    ∧ (∀ w a s : Settled,
        (gatewayMerge w a s).fst.map Prod.fst =
          ["weather", "airQuality", "sunTimes"])
    ∧ (∀ w a s : Settled, (aggregate w a s).statusCode = HttpStatus.OK →
        (aggregate w a s).body.keys = ["weather", "airQuality", "sunTimes"]) := by
  refine ⟨?_, handlerSched_eq_handler env event order1 h1, ?_, ?_⟩
  · rw [handlerSched_eq_handler env event order1 h1,
      handlerSched_eq_handler env event order2 h2]
  · intro w a s
    rw [gatewayMerge_fst]
    rfl
  · intro w a s h
    have hall := (aggregate_statusCode_ok_iff w a s).mp h
    simp only [Bool.and_eq_true] at hall
    obtain ⟨⟨hxw, hxa⟩, hxs⟩ := hall
    obtain ⟨vw, rfl⟩ := (Settled.isFulfilled_iff _).mp hxw
    obtain ⟨va, rfl⟩ := (Settled.isFulfilled_iff _).mp hxa
    obtain ⟨vs, rfl⟩ := (Settled.isFulfilled_iff _).mp hxs
    rfl

/-- C7 witness: two different settle orders of the three promises give
the identical response. -/
theorem claimC7_witness :
    handlerSched envOneFail eventBukhansan [0, 1, 2] =
      handlerSched envOneFail eventBukhansan [2, 0, 1] :=
  (claimC7 envOneFail eventBukhansan [0, 1, 2] [2, 0, 1]
    (by decide) (by decide)).1

/-- C8: for a request that reaches the fan-out, under the cooperative
concurrency model the handler's latency is the resolution duration
plus the maximum — not the sum — of the three provider durations,
whatever the outcomes; and the response is built only after all three
outcomes are collected, with all four collaborators called. -/
theorem claimC8 (env : Env) (d : Durations) (event : APIGatewayEvent)
    (q : QueryStringParameters) (t : String) (coord : Coord)
    (hq : event.queryStringParameters = some q) (ht : q.trailName = some t)
    (hne : t.isEmpty = false)
    (hc : env.getCoordinatesByTrailName t = .ok coord) :
    (handlerTimed env d event).snd =
      d.resolve + max d.weather (max d.airQuality d.sunTimes)
    ∧ (handlerTimed env d event).snd ≤
      d.resolve + (d.weather + d.airQuality + d.sunTimes)
    ∧ (handlerTimed env d event).fst =
      (aggregate (env.getWeatherAlert coord) (env.getAirQuality coord)
        (env.getSunTimes coord),
       [Call.coordinates, Call.weather, Call.airQuality, Call.sunTimes]) := by
  have hl : handlerLatency env d event = d.resolve + allSettledLatency d := by
    simp [handlerLatency, missingTrailName, hq, ht, hne, hc]
  refine ⟨hl, ?_, handler_fanout env event q t coord hq ht hne hc⟩
  rw [show (handlerTimed env d event).snd = handlerLatency env d event from rfl,
    hl]
  apply Nat.add_le_add_left
  apply Nat.max_le.mpr
  constructor
  · omega
  · apply Nat.max_le.mpr
    constructor <;> omega

/-- C8 witness: with the spec's staggered durations (resolution 20ms,
weather 300ms, air quality 50ms, sun times 10ms) the total is 320ms —
the resolution plus the slowest provider, not the 380ms sum. -/
theorem claimC8_witness :
    (handlerTimed envAllOk ⟨20, 300, 50, 10⟩ eventBukhansan).snd = 320 := by
  have h := (claimC8 envAllOk ⟨20, 300, 50, 10⟩ eventBukhansan
    ⟨some "bukhansan"⟩ "bukhansan" ⟨37, 126⟩ rfl rfl (by decide) rfl).1
  rw [h]
  decide

/-- C9: the plain handler is total — for every event it returns a
response with status 200, 400 or 500; an absent query object yields
the 400 validation response, and a throwing coordinate resolution is
converted by the outermost catch into the generic 500 response. -/
theorem claimC9 (env : Env) (event : APIGatewayEvent) :
    (event.queryStringParameters = none →
      handler env event =
        ({ statusCode := HttpStatus.BAD_REQUEST, body := badRequestBody }, []))
    ∧ ((handler env event).fst.statusCode = HttpStatus.OK
       ∨ (handler env event).fst.statusCode = HttpStatus.BAD_REQUEST
       ∨ (handler env event).fst.statusCode = HttpStatus.INTERNAL_SERVER_ERROR)
    ∧ (∀ q t e, event.queryStringParameters = some q → q.trailName = some t →
        t.isEmpty = false → env.getCoordinatesByTrailName t = .error e →
        (handler env event).fst =
          { statusCode := HttpStatus.INTERNAL_SERVER_ERROR,
            body := internalErrorBody }) := by
  refine ⟨?_, ?_, ?_⟩
  · intro h
    exact handler_of_missing env event (by simp [missingTrailName, h])
  · by_cases hm : missingTrailName event = true
    · rw [handler_of_missing env event hm]
      exact Or.inr (Or.inl rfl)
    · cases hqs : event.queryStringParameters with
      | none => exact absurd (by simp [missingTrailName, hqs]) hm
      | some q =>
        cases htn : q.trailName with
        | none => exact absurd (by simp [missingTrailName, hqs, htn]) hm
        | some t =>
          have hne : t.isEmpty = false := by
            cases he : t.isEmpty
            · rfl
            · exact absurd (by simp [missingTrailName, hqs, htn, he]) hm
          cases hc : env.getCoordinatesByTrailName t with
          | error e =>
            rw [handler_resolve_error env event q t e hqs htn hne hc]
            exact Or.inr (Or.inr rfl)
          | ok coord =>
            rw [handler_fanout env event q t coord hqs htn hne hc]
            rcases aggregate_statusCode_cases (env.getWeatherAlert coord)
              (env.getAirQuality coord) (env.getSunTimes coord) with h | h
            · exact Or.inl h
            · exact Or.inr (Or.inr h)
  · intro q t e hq ht hne hc
    rw [handler_resolve_error env event q t e hq ht hne hc]

/-- C9 witness: the event with an absent query object yields the 400
validation response. -/
theorem claimC9_witness :
    handler envAllOk eventNoQuery =
      ({ statusCode := HttpStatus.BAD_REQUEST, body := badRequestBody }, []) :=
  (claimC9 envAllOk eventNoQuery).1 rfl

/-- C10: an empty-string `trailName` behaves exactly like a missing
one in both handler variants: the same 400 `trailName is required.`
response and no downstream call. -/
theorem claimC10 (env : Env) :
    handler env eventEmptyTrail = handler env eventNoTrail
    ∧ handler env eventEmptyTrail =
      ({ statusCode := HttpStatus.BAD_REQUEST, body := badRequestBody }, [])
    ∧ handlerGW env ⟨some ""⟩ = handlerGW env ⟨none⟩
    ∧ handlerGW env ⟨some ""⟩ =
      .ok ({ status := HttpStatus.BAD_REQUEST, body := badRequestBody }, []) :=
  ⟨rfl, rfl, rfl, rfl⟩

end MountainInfo
